import Mathlib

/-!
Shallow embedding of `livedocx.py` (a client wrapper around the LiveDocx
mail-merge web service) and proofs about the claims of its specification.

The client is stateful (two staging mappings) and every public method issues
zero or more remote SOAP calls.  We embed:
  * Python values as the inductive `PyVal` (dict keys as `PyKey`, which is
    the hashable fragment needed here);
  * the client state as `LDState` (the two staging dictionaries, modelled as
    insertion-ordered association lists, which matches the parallel-ordering
    guarantee between `dict.keys()` and `dict.values()`);
  * remote calls as the inductive `RemoteCall`; methods return the list of
    calls they issue together with an `Except PyExc` result;
  * the transport and the filesystem as explicit oracle parameters (the
    boolean answer of `TemplateExists`, the base64 response payloads, the
    raw bytes of a local file);
  * Python exceptions as `PyExc` (the module defines `LiveDocxError`; the
    bulk `assign` raises `ValueError`; the suds transport raises `WebFault`).
-/

/-- Dict keys used by the client (the hashable values the code stores as
keys; `__setitem__` additionally dispatches on list/tuple keys). -/
inductive PyKey where
  | str (s : String)
  | int (n : Int)
  | listK (elems : List String)
  | tupleK (elems : List String)
deriving DecidableEq, Repr

/-- Python values flowing through the client: scalars, lists, tuples and
dictionaries (dictionaries keyed by `PyKey`). -/
inductive PyVal where
  | str (s : String)
  | int (n : Int)
  | noneV
  | list (elems : List PyVal)
  | tuple (elems : List PyVal)
  | dict (entries : List (PyKey × PyVal))

/-- `type(value) == list` of the source. -/
def PyVal.isList : PyVal → Bool
  | .list _ => true
  | _ => false

/-- View of a `PyKey` as the value sent on the wire. -/
def PyKey.toVal : PyKey → PyVal
  | .str s => PyVal.str s
  | .int n => PyVal.int n
  | .listK es => PyVal.list (es.map PyVal.str)
  | .tupleK es => PyVal.tuple (es.map PyVal.str)

/-- A SOAP fault raised by the suds transport (`WebFault`).  The service
distinguishes authentication failures from other faults only in its message;
on the client side both arrive as the same exception class. -/
inductive Fault where
  | authenticationFault
  | otherFault (message : String)
deriving DecidableEq, Repr

/-- The Python exceptions relevant to the module: the domain error
`LiveDocxError` (with its message), `ValueError` from `assign`, the suds
`WebFault`, and the exceptions raised by malformed block values inside
`_set_multi_field_values` (`block[0]` on an empty sequence, `.keys()` on a
non-dict, iterating a non-sequence). -/
inductive PyExc where
  | liveDocxError (msg : String)
  | valueError (msg : String)
  | webFault (fault : Fault)
  | indexError
  | attributeError
  | typeError
deriving DecidableEq, Repr

/-- One remote operation invocation, with the payload the code passes. -/
inductive RemoteCall where
  | setFieldValues (fieldValues : List (List PyVal))
  | setBlockFieldValues (blockName : PyKey) (blockFieldValues : List (List PyVal))
  | createDocument
  | deleteTemplate (filename : String)
  | downloadTemplate (filename : String)
  | templateExists (filename : String)
  | getAllBitmaps (zoomFactor : Int) (format : String)
  | getBitmaps (fromPage toPage zoomFactor : Int) (format : String)
  | getAllMetafiles
  | getMetafiles (fromPage toPage : Int)
  | retrieveDocument (format : String)
  | logIn (username password : String)
  | logOut
  | setRemoteTemplate (filename : String)
  | uploadTemplate (template : String) (filename : String)
  | setLocalTemplate (template : String) (format : String)

/-- The mutable state of a `LiveDocx` instance: `self.field_values` and
`self.block_field_values`, as insertion-ordered association lists. -/
structure LDState where
  field_values : List (PyKey × PyVal)
  block_field_values : List (PyKey × PyVal)

/-- Python dict assignment `m[k] = v`: overwrite in place if the key is
present, append otherwise. -/
def assocSet (m : List (PyKey × PyVal)) (k : PyKey) (v : PyVal) :
    List (PyKey × PyVal) :=
  if m.any (fun p => decide (p.1 = k)) then
    m.map (fun p => if p.1 = k then (k, v) else p)
  else
    m ++ [(k, v)]

/-- Python dict read `m.get(k)`. -/
def assocLookup (m : List (PyKey × PyVal)) (k : PyKey) : Option PyVal :=
  (m.find? (fun p => decide (p.1 = k))).map Prod.snd

/-- `row[key]` for a dict row, defaulting to `None` (used only to state the
key-order property of block payloads). -/
def dictLookupD (entries : List (PyKey × PyVal)) (key : PyKey) : PyVal :=
  ((entries.find? (fun p => decide (p.1 = key))).map Prod.snd).getD PyVal.noneV

/-- Python `str.upper()` (ASCII, which is all the code uses it on). -/
def pyUpper (s : String) : String := String.mk (s.data.map Char.toUpper)

def ALLOWED_TEMPLATE_EXT : List String := ["DOC", "DOCX", "RTF", "TXD"]

def ALLOWED_DOCUMENT_EXT : List String :=
  ["DOC", "DOCX", "HTML", "PDF", "TXD", "TXT"]

def ALLOWED_IMAGE_EXT : List String := ["BMP", "GIF", "JPG", "PNG", "TIFF"]

def zoomErrorMsg : String := "Zoom factor value must be between 20 and 400"

def imageFormatErrorMsg : String :=
  "Invalid image format. Valid formats are: " ++
    String.intercalate ", " ALLOWED_IMAGE_EXT

def pageRangeErrorMsg : String := "Both values from_page and to_page must be set"

/-- Message of `_validate_extension`; the source interpolates
`ALLOWED_TEMPLATE_EXT` whatever list it validates against. -/
def formatNotAllowedMsg : String :=
  "That format isn\x27t allowed - please pick one of these: " ++
    String.intercalate "," ALLOWED_TEMPLATE_EXT

def extensionMismatchMsg : String :=
  "Local template extension and remote name extension must match"

def invalidLoginMsg : String := "Invalid username/password combination"

/-- The base64 alphabet. -/
def b64Alphabet : List Char :=
  "ABCDEFGHIJKLMNOPQRSTUVWXYZabcdefghijklmnopqrstuvwxyz0123456789+/".data

def b64Char (n : Nat) : Char := b64Alphabet.getD n 'A'

/-- Encode up to three bytes as one base64 quantum (with `=` padding). -/
def b64chunk : List Nat → List Char
  | [a, b, c] =>
    [b64Char (a / 4), b64Char (a % 4 * 16 + b / 16),
     b64Char (b % 16 * 4 + c / 64), b64Char (c % 64)]
  | [a, b] =>
    [b64Char (a / 4), b64Char (a % 4 * 16 + b / 16), b64Char (b % 16 * 4), '=']
  | [a] => [b64Char (a / 4), b64Char (a % 4 * 16), '=', '=']
  | _ => []

/-- Encode a byte string, three bytes per quantum. -/
def b64body : List Nat → List Char
  | a :: b :: c :: rest => b64chunk [a, b, c] ++ b64body rest
  | rest => b64chunk rest

/-- Python 2 `str.encode(\x27base64\x27)` (`base64.encodestring`): the input
is encoded in 57-byte lines, each line followed by a newline. -/
def encodestring : List Nat → List Char
  | [] => []
  | b :: rest => b64body ((b :: rest).take 57) ++ '\n' :: encodestring ((b :: rest).drop 57)
termination_by bs => bs.length
decreasing_by simp [List.length_drop]; omega

/-- The index of a character in the base64 alphabet, if any. -/
def b64inv (c : Char) : Option Nat :=
  (List.range 64).find? (fun i => b64Alphabet.getD i '=' = c)

/-- Decode a stream of base64 digit values (four digits per three bytes;
a trailing partial quantum yields the bytes its digits determine). -/
def b64decodeGroups : List Nat → List Nat
  | a :: b :: c :: d :: rest =>
    (a * 4 + b / 16) :: (b % 16 * 16 + c / 4) :: (c % 4 * 64 + d) ::
      b64decodeGroups rest
  | [a, b, c] => [a * 4 + b / 16, b % 16 * 16 + c / 4]
  | [a, b] => [a * 4 + b / 16]
  | _ => []

/-- Python 2 `str.decode(\x27base64\x27)`: non-alphabet characters (newlines,
padding) are skipped, the remaining digits are decoded in quanta of four. -/
def decode_base64 (s : List Char) : List Nat :=
  b64decodeGroups (s.filterMap b64inv)

/-- Index of the last occurrence of `c` in `p`, if any. -/
def lastIdx (c : Char) (p : List Char) : Option Nat :=
  ((List.range p.length).filter (fun i => p.getD i c = c)).getLast?

/-- `os.path.splitext`: split at the last dot of the last path component,
unless every character between the component start and that dot is a dot. -/
def splitext (p : List Char) : List Char × List Char :=
  let sepIndex : Int := match lastIdx '/' p with | some i => (i : Int) | none => -1
  let dotIndex : Int := match lastIdx '.' p with | some i => (i : Int) | none => -1
  if sepIndex < dotIndex then
    let d := dotIndex.toNat
    if (List.range d).any (fun k => decide (sepIndex < (k : Int)) && p.getD k '.' != '.') then
      (p.take d, p.drop d)
    else (p, [])
  else (p, [])

/-- `_get_ext`: `os.path.splitext(path)[1][1:]`. -/
def get_ext (path : String) : String := String.mk (splitext path.data).2.tail

/-- `_validate_extension(extension, allowed_extensions)`.  The error message
always lists `ALLOWED_TEMPLATE_EXT`, as in the source. -/
def validate_extension (ext : String) (allowed_extensions : List String) :
    Except PyExc Unit :=
  if ext ∉ allowed_extensions then
    Except.error (PyExc.liveDocxError formatNotAllowedMsg)
  else Except.ok ()

/-- `assign_value(key, value)`. -/
def assign_value (st : LDState) (key : PyKey) (value : PyVal) : LDState :=
  { st with field_values := assocSet st.field_values key value }

/-- `assign_block(key, values)`. -/
def assign_block (st : LDState) (key : PyKey) (values : PyVal) : LDState :=
  { st with block_field_values := assocSet st.block_field_values key values }

/-- `__setitem__(key, value)`: list/tuple keys go to `assign_block`, all
other keys to `assign_value`. -/
def setitem (st : LDState) (key : PyKey) (value : PyVal) : LDState :=
  match key with
  | .listK _ => assign_block st key value
  | .tupleK _ => assign_block st key value
  | _ => assign_value st key value

/-- `assign(data)`: `ValueError` unless `data` is a dict; then each entry
whose value has exact type `list` goes to `assign_block`, every other entry
to `assign_value`. -/
def assign (st : LDState) (data : PyVal) : Except PyExc LDState :=
  match data with
  | .dict entries =>
    Except.ok (entries.foldl
      (fun s kv =>
        if (PyVal.isList kv.2) then assign_block s kv.1 kv.2
        else assign_value s kv.1 kv.2)
      st)
  | _ => Except.error (PyExc.valueError "Passed data must be a dictionary")

/-- `_set_field_values`: one `SetFieldValues` call whose payload is the keys
sequence followed by the values sequence. -/
def set_field_values (fv : List (PyKey × PyVal)) : RemoteCall :=
  RemoteCall.setFieldValues
    [fv.map (fun p => PyKey.toVal p.1), fv.map Prod.snd]

/-- `.keys()` / `.values()` are only defined on a dict (`AttributeError`
otherwise). -/
def pyDictEntries : PyVal → Except PyExc (List (PyKey × PyVal))
  | .dict entries => Except.ok entries
  | _ => Except.error PyExc.attributeError

/-- Iterating / indexing a block value requires a sequence (`TypeError`
otherwise). -/
def blockItems : PyVal → Except PyExc (List PyVal)
  | .list xs => Except.ok xs
  | .tuple xs => Except.ok xs
  | _ => Except.error PyExc.typeError

/-- `block[0]` (`IndexError` on an empty sequence). -/
def blockHead : List PyVal → Except PyExc PyVal
  | [] => Except.error PyExc.indexError
  | x :: _ => Except.ok x

/-- The value rows of a block: `item.values()` for each item in order; the
first failure aborts. -/
def rowValues : List PyVal → Except PyExc (List (List PyVal))
  | [] => Except.ok []
  | item :: rest =>
    match pyDictEntries item with
    | .error e => Except.error e
    | .ok entries =>
      match rowValues rest with
      | .error e => Except.error e
      | .ok rows => Except.ok (entries.map Prod.snd :: rows)

/-- The `ArrayOfArrayOfString` payload built for one block: the first row is
`block[0].keys()`, followed by `item.values()` for every item of the block. -/
def block_payload (block : List PyVal) : Except PyExc (List (List PyVal)) :=
  match blockHead block with
  | .error e => Except.error e
  | .ok first =>
    match pyDictEntries first with
    | .error e => Except.error e
    | .ok names =>
      match rowValues block with
      | .error e => Except.error e
      | .ok rows => Except.ok ((names.map (fun p => PyKey.toVal p.1)) :: rows)

/-- The `SetBlockFieldValues` call for one staged block. -/
def blockCall (k : PyKey) (v : PyVal) : Except PyExc RemoteCall :=
  match blockItems v with
  | .error e => Except.error e
  | .ok block =>
    match block_payload block with
    | .error e => Except.error e
    | .ok payload => Except.ok (RemoteCall.setBlockFieldValues k payload)

/-- `_set_multi_field_values`: one `SetBlockFieldValues` call per staged
block, in staging order; an exception aborts the remaining calls. -/
def set_multi_field_values :
    List (PyKey × PyVal) → List RemoteCall × Except PyExc Unit
  | [] => ([], Except.ok ())
  | (k, v) :: rest =>
    match blockCall k v with
    | .error e => ([], Except.error e)
    | .ok c =>
      (c :: (set_multi_field_values rest).1, (set_multi_field_values rest).2)

/-- `create_document()`: transmit the field values (if any), transmit the
block values (if any), clear both mappings, call `CreateDocument`.  An
exception while transmitting blocks aborts before the mappings are cleared
and before `CreateDocument`. -/
def create_document (st : LDState) :
    LDState × List RemoteCall × Except PyExc Unit :=
  match (if st.block_field_values.length > 0 then
           set_multi_field_values st.block_field_values
         else ([], Except.ok ())) with
  | (calls2, Except.error e) =>
    (st,
     (if st.field_values.length > 0 then [set_field_values st.field_values]
      else []) ++ calls2,
     Except.error e)
  | (calls2, Except.ok _) =>
    ({ field_values := [], block_field_values := [] },
     (if st.field_values.length > 0 then [set_field_values st.field_values]
      else []) ++ calls2 ++ [RemoteCall.createDocument],
     Except.ok ())

/-- `get_bitmaps(zoom, format, pages)`: the `Except.ok` value is the single
remote call issued (the code returns that response unwrapped via `.string`).
The format comparison is against the raw `format` argument, without
upper-casing. -/
def get_bitmaps (zoom : Int) (format : String)
    (pages : Option (Option Int × Option Int)) : Except PyExc RemoteCall :=
  if ¬ (20 ≤ zoom ∧ zoom ≤ 400) then
    Except.error (PyExc.liveDocxError zoomErrorMsg)
  else if format ∉ ALLOWED_IMAGE_EXT then
    Except.error (PyExc.liveDocxError imageFormatErrorMsg)
  else
    match pages with
    | Option.none => Except.ok (RemoteCall.getAllBitmaps zoom format)
    | some (some fromPage, some toPage) =>
      Except.ok (RemoteCall.getBitmaps fromPage toPage zoom format)
    | some _ => Except.error (PyExc.liveDocxError pageRangeErrorMsg)

/-- `get_metafiles(pages)`: same page-range contract as `get_bitmaps`. -/
def get_metafiles (pages : Option (Option Int × Option Int)) :
    Except PyExc RemoteCall :=
  match pages with
  | Option.none => Except.ok RemoteCall.getAllMetafiles
  | some (some fromPage, some toPage) =>
    Except.ok (RemoteCall.getMetafiles fromPage toPage)
  | some _ => Except.error (PyExc.liveDocxError pageRangeErrorMsg)

/-- `retrieve_document(format)` with the base64 `response` of the remote
call as an oracle: validate `format.upper()`, call `RetrieveDocument`, and
return the decoded payload. -/
def retrieve_document (format : String) (response : String) :
    List RemoteCall × Except PyExc (List Nat) :=
  match validate_extension (pyUpper format) ALLOWED_DOCUMENT_EXT with
  | .error e => ([], Except.error e)
  | .ok _ =>
    ([RemoteCall.retrieveDocument (pyUpper format)],
     Except.ok (decode_base64 response.data))

/-- `login(username, password)` with the transport outcome of the `LogIn`
call as an oracle: any `WebFault` is turned into the domain error, every
other exception propagates. -/
def login (username password : String) (transport : Except PyExc Unit) :
    List RemoteCall × Except PyExc Unit :=
  ([RemoteCall.logIn username password],
   match transport with
   | .ok _ => Except.ok ()
   | .error (.webFault _) => Except.error (PyExc.liveDocxError invalidLoginMsg)
   | .error e => Except.error e)

/-- `template_exists(filename)` with the remote answer as an oracle. -/
def template_exists (filename : String) (existsOnServer : Bool) :
    List RemoteCall × Bool :=
  ([RemoteCall.templateExists filename], existsOnServer)

/-- `delete_template(filename)`. -/
def delete_template (filename : String) (existsOnServer : Bool) :
    List RemoteCall × Except PyExc Unit :=
  match template_exists filename existsOnServer with
  | (calls, true) => (calls ++ [RemoteCall.deleteTemplate filename], Except.ok ())
  | (calls, false) =>
    (calls, Except.error (PyExc.liveDocxError
      ("Template \"" ++ filename ++ "\" not exists and it cannot be deleted")))

/-- `download_template(filename)` with the base64 `response` of the remote
call as an oracle. -/
def download_template (filename : String) (existsOnServer : Bool)
    (response : String) : List RemoteCall × Except PyExc (List Nat) :=
  match template_exists filename existsOnServer with
  | (calls, true) =>
    (calls ++ [RemoteCall.downloadTemplate filename],
     Except.ok (decode_base64 response.data))
  | (calls, false) =>
    (calls, Except.error (PyExc.liveDocxError
      ("Template \"" ++ filename ++ "\" not exists")))

/-- `set_remote_template(filename)`. -/
def set_remote_template (filename : String) (existsOnServer : Bool) :
    List RemoteCall × Except PyExc Unit :=
  match template_exists filename existsOnServer with
  | (calls, true) => (calls ++ [RemoteCall.setRemoteTemplate filename], Except.ok ())
  | (calls, false) =>
    (calls, Except.error (PyExc.liveDocxError
      ("Remote template \"" ++ filename ++ "\" not exists")))

/-- `set_local_template(filename)` with the raw bytes of the local file as
an oracle: validate the upper-cased extension, then call `SetLocalTemplate`
with the base64-encoded bytes and that upper-cased extension. -/
def set_local_template (fileBytes : List Nat) (filename : String) :
    List RemoteCall × Except PyExc Unit :=
  match validate_extension (pyUpper (get_ext filename)) ALLOWED_TEMPLATE_EXT with
  | .error e => ([], Except.error e)
  | .ok _ =>
    ([RemoteCall.setLocalTemplate (String.mk (encodestring fileBytes))
        (pyUpper (get_ext filename))],
     Except.ok ())

/-- `upload_template(path, filename)` with the raw bytes of the local file
as an oracle: validate the upper-cased local extension, then require the raw
local and remote extensions to be equal, then call `UploadTemplate` with the
base64-encoded bytes and the remote filename. -/
def upload_template (fileBytes : List Nat) (path : String) (filename : String) :
    List RemoteCall × Except PyExc Unit :=
  match validate_extension (pyUpper (get_ext path)) ALLOWED_TEMPLATE_EXT with
  | .error e => ([], Except.error e)
  | .ok _ =>
    if get_ext path ≠ get_ext filename then
      ([], Except.error (PyExc.liveDocxError extensionMismatchMsg))
    else
      ([RemoteCall.uploadTemplate (String.mk (encodestring fileBytes)) filename],
       Except.ok ())

theorem find?_map_replace (m : List (PyKey × PyVal)) (k : PyKey) (v : PyVal)
    (h : ∃ p ∈ m, p.1 = k) :
    (m.map (fun p => if p.1 = k then (k, v) else p)).find?
      (fun p => decide (p.1 = k)) = some (k, v) := by
  induction m with
  | nil => simp at h
  | cons q rest ih =>
    by_cases hq : q.1 = k
    · simp [List.find?, hq]
    · have h2 : ∃ p ∈ rest, p.1 = k := by
        obtain ⟨p, hp, hpk⟩ := h
        rcases List.mem_cons.mp hp with rfl | hp2
        · exact absurd hpk hq
        · exact ⟨p, hp2, hpk⟩
      simp [List.find?, hq, ih h2]

theorem find?_append_single (m : List (PyKey × PyVal)) (k : PyKey) (v : PyVal)
    (h : ∀ p ∈ m, ¬ p.1 = k) :
    (m ++ [(k, v)]).find? (fun p => decide (p.1 = k)) = some (k, v) := by
  induction m with
  | nil => simp [List.find?]
  | cons q rest ih =>
    have hq : ¬ q.1 = k := h q (List.mem_cons_self q rest)
    simp only [List.cons_append]
    simp [List.find?, hq, ih (fun p hp => h p (List.mem_cons_of_mem q hp))]

theorem assocLookup_assocSet (m : List (PyKey × PyVal)) (k : PyKey) (v : PyVal) :
    assocLookup (assocSet m k v) k = some v := by
  unfold assocSet assocLookup
  by_cases h : m.any (fun p => decide (p.1 = k)) = true
  · have h1 : ∃ p ∈ m, p.1 = k := by
      obtain ⟨p, hp, hpk⟩ := List.any_eq_true.mp h
      exact ⟨p, hp, by simpa using hpk⟩
    rw [if_pos h, find?_map_replace m k v h1]
    rfl
  · have h2 : ∀ p ∈ m, ¬ p.1 = k := by
      intro p hp hpk
      exact h (List.any_eq_true.mpr ⟨p, hp, by simpa using hpk⟩)
    rw [if_neg h, find?_append_single m k v h2]
    rfl

theorem set_multi_field_values_length (bfv : List (PyKey × PyVal))
    (h : (set_multi_field_values bfv).2 = Except.ok ()) :
    (set_multi_field_values bfv).1.length = bfv.length := by
  induction bfv with
  | nil => rfl
  | cons kv rest ih =>
    obtain ⟨k, v⟩ := kv
    simp only [set_multi_field_values] at h ⊢
    cases hbc : blockCall k v with
    | error e => rw [hbc] at h; simp at h
    | ok c =>
      rw [hbc] at h
      simp at h
      simp [ih h]

theorem rowValues_dicts (rows : List (List (PyKey × PyVal))) :
    rowValues (rows.map PyVal.dict) =
      Except.ok (rows.map (fun es => es.map Prod.snd)) := by
  induction rows with
  | nil => rfl
  | cons r rest ih => simp [rowValues, pyDictEntries, ih]

theorem values_in_key_order (es : List (PyKey × PyVal))
    (h : (es.map Prod.fst).Nodup) :
    es.map Prod.snd = (es.map Prod.fst).map (fun key => dictLookupD es key) := by
  induction es with
  | nil => rfl
  | cons p rest ih =>
    obtain ⟨k0, v0⟩ := p
    simp only [List.map_cons] at h ⊢
    rw [List.nodup_cons] at h
    obtain ⟨hk, hrest⟩ := h
    have hhead : dictLookupD ((k0, v0) :: rest) k0 = v0 := by
      simp [dictLookupD, List.find?]
    have htail : (rest.map Prod.fst).map (fun key => dictLookupD ((k0, v0) :: rest) key)
        = (rest.map Prod.fst).map (fun key => dictLookupD rest key) := by
      apply List.map_congr_left
      intro key hkey
      have hne : ¬ k0 = key := fun heq => hk (heq ▸ hkey)
      simp [dictLookupD, List.find?, hne]
    rw [hhead, htail, ← ih hrest]

/-- C3 (amended): login issues the remote LogIn call; every transport fault
(WebFault), authentication-related or not, is translated into the domain
error with the fixed message; exceptions that are not WebFaults propagate
unmodified. -/
theorem C3_login (username password : String) :
    login username password (Except.ok ()) =
      ([RemoteCall.logIn username password], Except.ok ())
    ∧ (∀ fault, login username password (Except.error (PyExc.webFault fault)) =
        ([RemoteCall.logIn username password],
         Except.error (PyExc.liveDocxError invalidLoginMsg)))
    ∧ (∀ e : PyExc, (∀ fault, e ≠ PyExc.webFault fault) →
        login username password (Except.error e) =
          ([RemoteCall.logIn username password], Except.error e)) := by
  refine ⟨rfl, fun _fault => rfl, fun e he => ?_⟩
  cases e with
  | webFault f => exact absurd rfl (he f)
  | liveDocxError m => rfl
  | valueError m => rfl
  | indexError => rfl
  | attributeError => rfl
  | typeError => rfl

/-- C3 counterexample: a transport fault that is not an authentication fault
is not propagated unmodified; it is swallowed and replaced by the domain
error claiming an invalid username/password combination. -/
theorem C3_counterexample :
    login "user" "pass"
        (Except.error (PyExc.webFault (Fault.otherFault "Internal Server Error"))) =
      ([RemoteCall.logIn "user" "pass"],
       Except.error (PyExc.liveDocxError invalidLoginMsg))
    ∧ PyExc.liveDocxError invalidLoginMsg ≠
        PyExc.webFault (Fault.otherFault "Internal Server Error") :=
  ⟨rfl, by decide⟩

/-- C3 witness: a non-WebFault exception propagates unmodified. -/
theorem C3_login_witness :
    login "user" "pass" (Except.error PyExc.typeError) =
      ([RemoteCall.logIn "user" "pass"], Except.error PyExc.typeError) :=
  (C3_login "user" "pass").2.2 PyExc.typeError (fun _fault h => PyExc.noConfusion h)

/-- C5: with a valid zoom and image format, absent pages issue the all-pages
call, a fully specified pair issues the ranged call with fromPage and toPage
taken from the pair, and a half-specified pair raises the partial-range
domain error; likewise for get_metafiles, which has no other validations. -/
theorem C5_page_ranges (zoom : Int) (format : String)
    (hz1 : 20 ≤ zoom) (hz2 : zoom ≤ 400) (hf : format ∈ ALLOWED_IMAGE_EXT) :
    (get_bitmaps zoom format Option.none =
      Except.ok (RemoteCall.getAllBitmaps zoom format))
    ∧ (∀ a b : Int, get_bitmaps zoom format (some (some a, some b)) =
        Except.ok (RemoteCall.getBitmaps a b zoom format))
    ∧ (∀ a : Int,
        get_bitmaps zoom format (some (some a, Option.none)) =
          Except.error (PyExc.liveDocxError pageRangeErrorMsg)
        ∧ get_bitmaps zoom format (some (Option.none, some a)) =
          Except.error (PyExc.liveDocxError pageRangeErrorMsg))
    ∧ (get_metafiles Option.none = Except.ok RemoteCall.getAllMetafiles)
    ∧ (∀ a b : Int, get_metafiles (some (some a, some b)) =
        Except.ok (RemoteCall.getMetafiles a b))
    ∧ (∀ a : Int,
        get_metafiles (some (some a, Option.none)) =
          Except.error (PyExc.liveDocxError pageRangeErrorMsg)
        ∧ get_metafiles (some (Option.none, some a)) =
          Except.error (PyExc.liveDocxError pageRangeErrorMsg)) := by
  have hcond : ¬ ¬ (20 ≤ zoom ∧ zoom ≤ 400) := not_not_intro ⟨hz1, hz2⟩
  have hfcond : ¬ format ∉ ALLOWED_IMAGE_EXT := not_not_intro hf
  simp only [get_bitmaps, get_metafiles, if_neg hcond, if_neg hfcond]
  simp

/-- C5 witness at concrete inputs. -/
theorem C5_page_ranges_witness :
    get_bitmaps 100 "PNG" (some (some 1, Option.none)) =
      Except.error (PyExc.liveDocxError pageRangeErrorMsg)
    ∧ get_metafiles (some (some 2, some 5)) =
        Except.ok (RemoteCall.getMetafiles 2 5) :=
  ⟨((C5_page_ranges 100 "PNG" (by decide) (by decide) (by decide)).2.2.1 1).1,
   (C5_page_ranges 100 "PNG" (by decide) (by decide) (by decide)).2.2.2.2.1 2 5⟩

/-- C7: assign raises ValueError (a kind distinct from the domain
LiveDocxError) on non-dict input; an entry whose value has exact type list
is stored as a block assignment and any other entry as a scalar field
assignment; the two concrete examples of the claim. -/
theorem C7_assign (st : LDState) :
    (∀ data : PyVal, (∀ entries, data ≠ PyVal.dict entries) →
        assign st data = Except.error (PyExc.valueError "Passed data must be a dictionary"))
    ∧ (∀ k v, assign st (PyVal.dict [(k, v)]) =
        Except.ok (if (PyVal.isList v) then assign_block st k v
                   else assign_value st k v))
    ∧ assign { field_values := [], block_field_values := [] }
        (PyVal.dict [(PyKey.str "name", PyVal.str "John"),
                     (PyKey.str "rows",
                      PyVal.list [PyVal.dict [(PyKey.str "a", PyVal.int 1)]])]) =
        Except.ok { field_values := [(PyKey.str "name", PyVal.str "John")],
                    block_field_values :=
                      [(PyKey.str "rows",
                        PyVal.list [PyVal.dict [(PyKey.str "a", PyVal.int 1)]])] }
    ∧ assign st (PyVal.str "not a dict") =
        Except.error (PyExc.valueError "Passed data must be a dictionary") := by
  refine ⟨?_, fun k v => rfl, rfl, rfl⟩
  intro data hd
  cases data with
  | dict entries => exact absurd rfl (hd entries)
  | str s => rfl
  | int n => rfl
  | noneV => rfl
  | list es => rfl
  | tuple es => rfl

/-- C7 witness: a non-dict, non-string input also raises the ValueError. -/
theorem C7_assign_witness :
    assign { field_values := [], block_field_values := [] } (PyVal.int 5) =
      Except.error (PyExc.valueError "Passed data must be a dictionary") :=
  (C7_assign { field_values := [], block_field_values := [] }).1 (PyVal.int 5)
    (fun _entries h => PyVal.noConfusion h)

/-- C8: delete_template, download_template and set_remote_template query
TemplateExists first; on a negative answer each raises the domain not-found
error with no further remote call; on a positive answer delete issues
DeleteTemplate, download returns the base64-decoded response of
DownloadTemplate, and set_remote issues SetRemoteTemplate. -/
theorem C8_template_guards (filename : String) (response : String) :
    (delete_template filename false =
        ([RemoteCall.templateExists filename],
         Except.error (PyExc.liveDocxError
           ("Template \"" ++ filename ++ "\" not exists and it cannot be deleted")))
      ∧ RemoteCall.deleteTemplate filename ∉ (delete_template filename false).1)
    ∧ delete_template filename true =
        ([RemoteCall.templateExists filename, RemoteCall.deleteTemplate filename],
         Except.ok ())
    ∧ (download_template filename false response =
        ([RemoteCall.templateExists filename],
         Except.error (PyExc.liveDocxError ("Template \"" ++ filename ++ "\" not exists")))
      ∧ download_template filename true response =
        ([RemoteCall.templateExists filename, RemoteCall.downloadTemplate filename],
         Except.ok (decode_base64 response.data)))
    ∧ (set_remote_template filename false =
        ([RemoteCall.templateExists filename],
         Except.error (PyExc.liveDocxError
           ("Remote template \"" ++ filename ++ "\" not exists")))
      ∧ set_remote_template filename true =
        ([RemoteCall.templateExists filename, RemoteCall.setRemoteTemplate filename],
         Except.ok ())) := by
  refine ⟨⟨rfl, ?_⟩, rfl, ⟨rfl, rfl⟩, rfl, rfl⟩
  simp [delete_template, template_exists]

/-- C9: get_bitmaps raises the zoom validation error exactly when the zoom
is outside [20, 400], whatever the format and pages arguments are - the
zoom check comes before the format and page-range checks and before any
remote call. -/
theorem C9_zoom (zoom : Int) (format : String)
    (pages : Option (Option Int × Option Int)) :
    get_bitmaps zoom format pages = Except.error (PyExc.liveDocxError zoomErrorMsg)
      ↔ (zoom < 20 ∨ 400 < zoom) := by
  have hm1 : imageFormatErrorMsg ≠ zoomErrorMsg := by decide
  have hm2 : pageRangeErrorMsg ≠ zoomErrorMsg := by decide
  unfold get_bitmaps
  by_cases hz : 20 ≤ zoom ∧ zoom ≤ 400
  · rw [if_neg (not_not_intro hz)]
    have hzr : ¬ (zoom < 20 ∨ 400 < zoom) := by omega
    simp only [hzr, iff_false]
    intro h
    by_cases hfc : format ∉ ALLOWED_IMAGE_EXT
    · rw [if_pos hfc] at h
      simp at h
      exact hm1 h
    · rw [if_neg hfc] at h
      rcases pages with _ | ⟨a, b⟩
      · simp at h
      · rcases a with _ | a <;> rcases b with _ | b <;> simp at h <;> exact hm2 h
  · rw [if_pos hz]
    constructor
    · intro _
      omega
    · intro _
      rfl

/-- C10: item assignment dispatches list and tuple keys to assign_block and
every other key to assign_value, with last-write-wins overwrite semantics
for the stored scalar field value. -/
theorem C10_setitem (st : LDState) (key : PyKey) (value : PyVal) :
    ((∀ es, key ≠ PyKey.listK es) → (∀ es, key ≠ PyKey.tupleK es) →
        setitem st key value = assign_value st key value
        ∧ assocLookup (setitem st key value).field_values key = some value
        ∧ ∀ v2, assocLookup
            (setitem (setitem st key value) key v2).field_values key = some v2)
    ∧ (∀ es v2, setitem st (PyKey.listK es) v2 = assign_block st (PyKey.listK es) v2)
    ∧ (∀ es v2, setitem st (PyKey.tupleK es) v2 = assign_block st (PyKey.tupleK es) v2) := by
  refine ⟨?_, fun es v2 => rfl, fun es v2 => rfl⟩
  intro hl ht
  have hv : ∀ s : LDState, setitem s key value = assign_value s key value := by
    intro s
    cases key with
    | str s0 => rfl
    | int n => rfl
    | listK es => exact absurd rfl (hl es)
    | tupleK es => exact absurd rfl (ht es)
  have hv2 : ∀ (s : LDState) (w : PyVal), setitem s key w = assign_value s key w := by
    intro s w
    cases key with
    | str s0 => rfl
    | int n => rfl
    | listK es => exact absurd rfl (hl es)
    | tupleK es => exact absurd rfl (ht es)
  refine ⟨hv st, ?_, ?_⟩
  · rw [hv st]
    exact assocLookup_assocSet st.field_values key value
  · intro v2
    rw [hv2 (setitem st key value) v2]
    exact assocLookup_assocSet (setitem st key value).field_values key v2

/-- C10 witness: two writes to the scalar key x leave x bound to the second
value. -/
theorem C10_setitem_witness :
    assocLookup
      (setitem (setitem { field_values := [], block_field_values := [] }
          (PyKey.str "x") (PyVal.int 1)) (PyKey.str "x") (PyVal.int 2)).field_values
      (PyKey.str "x") = some (PyVal.int 2) :=
  ((C10_setitem { field_values := [], block_field_values := [] }
      (PyKey.str "x") (PyVal.int 1)).1
    (fun _es h => PyKey.noConfusion h) (fun _es h => PyKey.noConfusion h)).2.2 (PyVal.int 2)

/-- C1 (amended): retrieve_document raises the format validation error iff
the upper-cased format is outside the document set, and upload_template /
set_local_template raise it iff the upper-cased local extension is outside
the template set; get_bitmaps however compares the raw format string
case-sensitively against the image set, so (with a valid zoom) it raises the
validation error iff the raw format is not in the set. -/
theorem C1_formats (f : String) :
    (∀ response,
        ((retrieve_document f response).2 =
            Except.error (PyExc.liveDocxError formatNotAllowedMsg)
          ↔ pyUpper f ∉ ALLOWED_DOCUMENT_EXT))
    ∧ (∀ (zoom : Int) pages, 20 ≤ zoom → zoom ≤ 400 →
        (get_bitmaps zoom f pages =
            Except.error (PyExc.liveDocxError imageFormatErrorMsg)
          ↔ f ∉ ALLOWED_IMAGE_EXT))
    ∧ (∀ (fileBytes : List Nat) path filename, get_ext path = f →
        ((upload_template fileBytes path filename).2 =
            Except.error (PyExc.liveDocxError formatNotAllowedMsg)
          ↔ pyUpper f ∉ ALLOWED_TEMPLATE_EXT))
    ∧ (∀ (fileBytes : List Nat) filename, get_ext filename = f →
        ((set_local_template fileBytes filename).2 =
            Except.error (PyExc.liveDocxError formatNotAllowedMsg)
          ↔ pyUpper f ∉ ALLOWED_TEMPLATE_EXT)) := by
  have hmsg : pageRangeErrorMsg ≠ imageFormatErrorMsg := by decide
  have hmsg2 : extensionMismatchMsg ≠ formatNotAllowedMsg := by decide
  refine ⟨?_, ?_, ?_, ?_⟩
  · intro response
    unfold retrieve_document validate_extension
    by_cases h : pyUpper f ∉ ALLOWED_DOCUMENT_EXT
    · rw [if_pos h]
      simp [h]
    · rw [if_neg h]
      simp [h]
  · intro zoom pages hz1 hz2
    unfold get_bitmaps
    rw [if_neg (not_not_intro ⟨hz1, hz2⟩)]
    by_cases hf : f ∉ ALLOWED_IMAGE_EXT
    · rw [if_pos hf]
      simp [hf]
    · rw [if_neg hf]
      simp only [hf, iff_false]
      intro h
      rcases pages with _ | ⟨a, b⟩
      · simp at h
      · rcases a with _ | a <;> rcases b with _ | b <;> simp at h <;> exact hmsg h
  · intro fileBytes path filename hpath
    unfold upload_template validate_extension
    rw [hpath]
    by_cases h : pyUpper f ∉ ALLOWED_TEMPLATE_EXT
    · rw [if_pos h]
      simp [h]
    · rw [if_neg h]
      simp only [h, iff_false]
      by_cases hm : f ≠ get_ext filename
      · rw [if_pos hm]
        intro hcontra
        simp at hcontra
        exact hmsg2 hcontra
      · rw [if_neg hm]
        simp
  · intro fileBytes filename hfn
    unfold set_local_template validate_extension
    rw [hfn]
    by_cases h : pyUpper f ∉ ALLOWED_TEMPLATE_EXT
    · rw [if_pos h]
      simp [h]
    · rw [if_neg h]
      simp [h]

/-- C1 counterexample: with a valid zoom, get_bitmaps raises the image
format validation error on the format png even though png upper-cases into
the allowed image set - the code compares the raw string, not the
upper-cased one. -/
theorem C1_counterexample :
    get_bitmaps 100 "png" Option.none =
      Except.error (PyExc.liveDocxError imageFormatErrorMsg)
    ∧ pyUpper "png" ∈ ALLOWED_IMAGE_EXT :=
  ⟨rfl, by decide⟩

/-- C1 witness: the amended rule evaluated at the format png. -/
theorem C1_formats_witness :
    (get_bitmaps 100 "png" Option.none =
        Except.error (PyExc.liveDocxError imageFormatErrorMsg))
      ↔ "png" ∉ ALLOWED_IMAGE_EXT :=
  (C1_formats "png").2.1 100 Option.none (by decide) (by decide)

/-- C2: create_document transmits SetFieldValues (keys and values as two
parallel sequences in a sequence-of-sequences) only when the field mapping
is non-empty and one SetBlockFieldValues call per staged block only when the
block mapping is non-empty, then clears both mappings and calls
CreateDocument; a subsequent create_document on the cleared state issues
only the CreateDocument call. -/
theorem C2_create_document (st : LDState)
    (h : (set_multi_field_values st.block_field_values).2 = Except.ok ()) :
    create_document st =
      ({ field_values := [], block_field_values := [] },
       (if st.field_values.length > 0 then
          [RemoteCall.setFieldValues
            [st.field_values.map (fun p => PyKey.toVal p.1),
             st.field_values.map Prod.snd]]
        else [])
        ++ (if st.block_field_values.length > 0 then
              (set_multi_field_values st.block_field_values).1
            else [])
        ++ [RemoteCall.createDocument],
       Except.ok ())
    ∧ (set_multi_field_values st.block_field_values).1.length =
        st.block_field_values.length
    ∧ create_document { field_values := [], block_field_values := [] } =
        ({ field_values := [], block_field_values := [] },
         [RemoteCall.createDocument], Except.ok ()) := by
  refine ⟨?_, set_multi_field_values_length _ h, rfl⟩
  unfold create_document
  by_cases hb : st.block_field_values.length > 0
  · rw [if_pos hb, if_pos hb]
    have hx : set_multi_field_values st.block_field_values
        = ((set_multi_field_values st.block_field_values).1, Except.ok ()) := by
      rw [← h]
    rw [hx]
    rfl
  · rw [if_neg hb, if_neg hb]
    rfl

/-- C2 witness: a state with one field value and one staged block. -/
theorem C2_create_document_witness :
    create_document { field_values := [], block_field_values := [] } =
      ({ field_values := [], block_field_values := [] },
       [RemoteCall.createDocument], Except.ok ()) :=
  (C2_create_document
    { field_values := [(PyKey.str "name", PyVal.str "John")],
      block_field_values :=
        [(PyKey.str "rows",
          PyVal.list [PyVal.dict [(PyKey.str "a", PyVal.int 1)],
                      PyVal.dict [(PyKey.str "a", PyVal.int 2)]])] }
    (by rfl)).2.2

/-- C4 (amended): upload_template raises the extension-mismatch error
exactly when the upper-cased local extension is allowed and the raw local
and remote extensions differ; when the local extension is not allowed the
format validation error is raised instead; when the extensions agree and the
local extension is allowed it calls UploadTemplate with the base64-encoded
bytes and the target filename. -/
theorem C4_upload_template (fileBytes : List Nat) (path filename : String) :
    (pyUpper (get_ext path) ∈ ALLOWED_TEMPLATE_EXT →
      get_ext path ≠ get_ext filename →
      upload_template fileBytes path filename =
        ([], Except.error (PyExc.liveDocxError extensionMismatchMsg)))
    ∧ (pyUpper (get_ext path) ∉ ALLOWED_TEMPLATE_EXT →
      upload_template fileBytes path filename =
        ([], Except.error (PyExc.liveDocxError formatNotAllowedMsg)))
    ∧ (pyUpper (get_ext path) ∈ ALLOWED_TEMPLATE_EXT →
      get_ext path = get_ext filename →
      upload_template fileBytes path filename =
        ([RemoteCall.uploadTemplate (String.mk (encodestring fileBytes)) filename],
         Except.ok ())) := by
  unfold upload_template validate_extension
  refine ⟨fun h1 h2 => ?_, fun h1 => ?_, fun h1 h2 => ?_⟩
  · rw [if_neg (not_not_intro h1), if_pos h2]
  · rw [if_pos h1]
  · rw [if_neg (not_not_intro h1), if_neg (not_not_intro h2)]

/-- C4 counterexample: a raw-extension mismatch where the local extension is
not an allowed template format raises the format validation error, not the
extension-mismatch error the claim promises for every mismatch. -/
theorem C4_counterexample :
    get_ext "/tmp/a.pdf" ≠ get_ext "a.doc"
    ∧ (upload_template [] "/tmp/a.pdf" "a.doc").2 =
        Except.error (PyExc.liveDocxError formatNotAllowedMsg)
    ∧ formatNotAllowedMsg ≠ extensionMismatchMsg :=
  ⟨by decide, rfl, by decide⟩

/-- C4 witness: the claim's own example, where docx and DOCX differ under
the exact comparison. -/
theorem C4_upload_template_witness :
    upload_template [] "/tmp/report.docx" "report.DOCX" =
      ([], Except.error (PyExc.liveDocxError extensionMismatchMsg)) :=
  (C4_upload_template [] "/tmp/report.docx" "report.DOCX").1 (by decide) (by decide)

/-- C6: a non-empty staged block whose rows all share the key list of the
first row is transmitted as one SetBlockFieldValues call whose payload is
the first row's key sequence followed by one value row per data row, and
each value row lists that row's values in the shared key order. -/
theorem C6_block_payload (k : PyKey) (rows : List (List (PyKey × PyVal)))
    (keyList : List PyKey) (hne : rows ≠ [])
    (hkeys : ∀ es ∈ rows, es.map Prod.fst = keyList)
    (hnodup : keyList.Nodup) :
    set_multi_field_values [(k, PyVal.list (rows.map PyVal.dict))] =
      ([RemoteCall.setBlockFieldValues k
          ((keyList.map PyKey.toVal) :: rows.map (fun es => es.map Prod.snd))],
       Except.ok ())
    ∧ ∀ es ∈ rows, es.map Prod.snd =
        keyList.map (fun key => dictLookupD es key) := by
  constructor
  · obtain ⟨r, rest, rfl⟩ : ∃ r rest, rows = r :: rest := by
      cases rows with
      | nil => exact absurd rfl hne
      | cons r rest => exact ⟨r, rest, rfl⟩
    have hr : r.map Prod.fst = keyList := hkeys r (List.mem_cons_self r rest)
    rw [← hr]
    have hrv := rowValues_dicts (r :: rest)
    simp only [List.map_cons] at hrv ⊢
    simp [set_multi_field_values, blockCall, blockItems, block_payload,
      blockHead, pyDictEntries, hrv, List.map_map, Function.comp]
  · intro es hes
    have hk : es.map Prod.fst = keyList := hkeys es hes
    rw [← hk] at hnodup ⊢
    exact values_in_key_order es hnodup

/-- C6 witness: a two-row block with columns a, b. -/
theorem C6_block_payload_witness :
    set_multi_field_values
      [(PyKey.str "rows",
        PyVal.list
          [PyVal.dict [(PyKey.str "a", PyVal.int 1), (PyKey.str "b", PyVal.int 2)],
           PyVal.dict [(PyKey.str "a", PyVal.int 3), (PyKey.str "b", PyVal.int 4)]])] =
      ([RemoteCall.setBlockFieldValues (PyKey.str "rows")
          [[PyVal.str "a", PyVal.str "b"],
           [PyVal.int 1, PyVal.int 2],
           [PyVal.int 3, PyVal.int 4]]],
       Except.ok ()) :=
  (C6_block_payload (PyKey.str "rows")
    [[(PyKey.str "a", PyVal.int 1), (PyKey.str "b", PyVal.int 2)],
     [(PyKey.str "a", PyVal.int 3), (PyKey.str "b", PyVal.int 4)]]
    [PyKey.str "a", PyKey.str "b"]
    (by simp) (by simp) (by simp)).1
